import Mathlib

/-!
Verification of the FlipperPi scan-loop controller
(src/Python/Flipper.py, class FlipperPiDevice).

The Python program is a sequential polling loop.  We embed it shallowly:

* Python string primitives used by the code (str.split with a one-character
  separator, the `in` substring test) are given executable definitions over
  `List Char`.
* `wifi_scan` is embedded as a function of the text produced by the
  iwlist subprocess; the subprocess call itself is outside the program, so
  its outcome is an input of type `Option String` (`none` models the call
  raising, e.g. tool missing).  A parse step that would raise IndexError
  in Python is modelled by `Option`; the surrounding try/except of
  `wifi_scan` turns either failure into the empty list, so `wifi_scan`
  itself is total — totality embeds "never raises past its boundary".
* `advanced_bluetooth_scan` is embedded as a function of the discovery
  result produced by the radio stack (`Option` for an exception inside
  bluetooth.discover_devices) and of the per-address service lookup
  (`String → Option (List String)`, `none` modelling bluetooth.find_service
  raising for that address).
* The body of `scan_loop` (inside start_continuous_scan) is embedded as a
  function `cycleTrace` from a cycle environment to the list of observable
  events of that cycle: GPIO writes to the status LED, collaborator calls,
  log entries and time.sleep calls, in program order.  The only statements
  of the try body that can raise in the source are the two GPIO.output
  calls (RPi.GPIO raises at runtime on a hardware/setup error); all other
  steps are total (the scans and `update_display` absorb their own
  failures, and logger.info / time.sleep are called with constant
  well-formed arguments).  The environment therefore carries one failure
  flag per GPIO.output call; a raised flag routes the rest of the cycle to
  the except handler, which logs once and sleeps 5, exactly as in the
  source.  The infinite while-True loop is embedded as `scanLoopTrace`,
  the concatenation of the first n cycle traces.
-/

namespace FlipperPi

/-- Accumulator worker for Python str.split with a one-character
separator: cuts the character list at every occurrence of `c`. -/
def splitOnCharAux (c : Char) : List Char → List Char → List (List Char)
  | [], acc => [acc.reverse]
  | d :: rest, acc =>
    if d == c then acc.reverse :: splitOnCharAux c rest []
    else splitOnCharAux c rest (d :: acc)

/-- Python s.split(c) for a one-character separator `c`, as used in
`wifi_scan` with the newline and the double-quote character. -/
def pySplit (c : Char) (s : String) : List String :=
  (splitOnCharAux c s.toList []).map String.mk

/-- Does `hay` start with `needle`?  Worker for the substring test. -/
def startsWithSeq : List Char → List Char → Bool
  | [], _ => true
  | _ :: _, [] => false
  | a :: as, b :: bs => a == b && startsWithSeq as bs

/-- Does the character list contain `needle` as a contiguous run? -/
def containsSeq (needle : List Char) : List Char → Bool
  | [] => needle.isEmpty
  | c :: cs => startsWithSeq needle (c :: cs) || containsSeq needle cs

/-- Python substring containment, as in the test whether the marker ESSID
occurs in a line. -/
def pyContains (needle s : String) : Bool :=
  containsSeq needle.toList s.toList

/-- One Wi-Fi network observation: the dictionary with the single key
ssid built by `wifi_scan`. -/
structure NetworkObservation where
  ssid : String
  deriving Repr, DecidableEq

/-- One Bluetooth device observation: the dictionary with keys address,
name and services built by `advanced_bluetooth_scan`. -/
structure DeviceObservation where
  address : String
  name : String
  services : List String
  deriving Repr, DecidableEq

/-- One NFC observation.  The stub NFCReader.read of the source always
returns the fixed string below; the scan loop never calls it. -/
structure TagObservation where
  payload : String
  deriving Repr, DecidableEq

/-- The stub reader built by initialize_nfc: read returns a constant. -/
def nfc_read : TagObservation :=
  ⟨"Nenhuma tag detectada"⟩

/-- Python line.split on the double quote, indexed at 1, as an `Option`:
`none` models the IndexError raised when the line has no double quote. -/
def essidOfLine (line : String) : Option String :=
  (pySplit '"' line)[1]?

/-- The parsing loop of `wifi_scan` over the lines of the tool output:
for each line containing ESSID, append a network whose ssid is the
segment between the first two double quotes.  `none` models an IndexError
escaping the loop (the half-built networks list is then discarded by the
enclosing except clause of `wifi_scan`). -/
def parseNetworks : List String → Option (List NetworkObservation)
  | [] => some []
  | line :: rest =>
    if pyContains "ESSID" line then
      match essidOfLine line with
      | none => none
      | some essid => (parseNetworks rest).map (fun ns => ⟨essid⟩ :: ns)
    else parseNetworks rest

/-- FlipperPiDevice.wifi_scan.  The argument is the outcome of the
subprocess call running iwlist wlan0 scan (`none` = the call raised).
Any failure — subprocess error or parse IndexError — is caught by the
try/except of the function and yields the empty list. -/
def wifi_scan (subprocessOut : Option String) : List NetworkObservation :=
  match subprocessOut with
  | none => []
  | some out =>
    match parseNetworks (pySplit '\n' out) with
    | none => []
    | some ns => ns

/-- Whether `wifi_scan` entered its except branch (and hence called
logger.error) for the given subprocess outcome. -/
def wifiScanErrored (subprocessOut : Option String) : Bool :=
  match subprocessOut with
  | none => true
  | some out => (parseNetworks (pySplit '\n' out)).isNone

/-- BluetoothScanner.discover: the inner try absorbs an exception from
bluetooth.discover_devices and returns the devices accumulated so far,
which is the empty list because the conversion loop itself cannot fail. -/
def discover (nearbyDevices : Option (List (String × String))) :
    List (String × String) :=
  match nearbyDevices with
  | none => []
  | some ds => ds

/-- FlipperPiDevice.advanced_bluetooth_scan.  `scannerPresent` models
self.bluetooth_scanner being set (not None); `nearbyDevices` is the
outcome of bluetooth.discover_devices (`none` = it raised);
`findService a` is the outcome of bluetooth.find_service at address `a`
(`none` = it raised, in which case the device keeps an empty service
list). -/
def advanced_bluetooth_scan (scannerPresent : Bool)
    (nearbyDevices : Option (List (String × String)))
    (findService : String → Option (List String)) : List DeviceObservation :=
  if scannerPresent then
    (discover nearbyDevices).map (fun d =>
      match findService d.1 with
      | none => ⟨d.1, d.2, []⟩
      | some svcs => ⟨d.1, d.2, svcs⟩)
  else []

/-- Observable events of one pass of the scan loop, in program order. -/
inductive Event where
  /-- GPIO.output on the LED pin: `true` = HIGH (active),
  `false` = LOW (idle). -/
  | setIndicator (active : Bool)
  /-- the call self.wifi_scan() -/
  | wifiCall
  /-- the call self.advanced_bluetooth_scan() -/
  | btCall
  /-- a call self.nfc_reader.read() (never emitted by the loop) -/
  | nfcCall
  /-- the two logger.info count lines, with the two counts -/
  | logCounts (wifi bt : Nat)
  /-- the call self.update_display(...) -/
  | displayCall
  /-- the display actually redrawn (fill/text/show succeeded) -/
  | displayShown (wifi bt : Nat)
  /-- logger.error inside `wifi_scan` -/
  | logErrorWifi
  /-- logger.error inside `update_display` -/
  | logErrorDisplay
  /-- logger.error in the except handler of the loop body -/
  | logErrorLoop
  /-- time.sleep(n) -/
  | sleep (n : Nat)
  deriving Repr, DecidableEq

/-- The circumstances of one cycle that are outside the program: the
collaborator outcomes and the two possible GPIO.output hardware
failures. -/
structure CycleEnv where
  /-- outcome of the iwlist subprocess call -/
  wifiOutput : Option String
  /-- self.bluetooth_scanner is set (not None) -/
  scannerPresent : Bool
  /-- outcome of bluetooth.discover_devices -/
  nearbyDevices : Option (List (String × String))
  /-- outcome of bluetooth.find_service per address -/
  findService : String → Option (List String)
  /-- the display attribute exists (display setup succeeded) -/
  displayPresent : Bool
  /-- the display redraw raises -/
  displayFails : Bool
  /-- GPIO.output HIGH (cycle start) raises -/
  gpioHighFails : Bool
  /-- GPIO.output LOW (after the dwell) raises -/
  gpioLowFails : Bool

/-- Log events emitted by `wifi_scan` itself, as seen from the loop. -/
def wifiLogTrace : Bool → List Event
  | true => [Event.logErrorWifi]
  | false => []

/-- FlipperPiDevice.update_display: returns immediately when there is no
display attribute; otherwise redraws, and its try/except turns a redraw
failure into a single logger.error.  Total — it never raises. -/
def update_display (displayPresent displayFails : Bool) (wifi bt : Nat) :
    List Event :=
  if displayPresent then
    if displayFails then [Event.logErrorDisplay]
    else [Event.displayShown wifi bt]
  else []

/-- One iteration of scan_loop (the while-True body inside
start_continuous_scan), as the list of its observable events.  A raising
GPIO.output aborts the try body at that point and the except handler
runs: one logger.error, then time.sleep(5). -/
def cycleTrace (env : CycleEnv) : List Event :=
  if env.gpioHighFails then [Event.logErrorLoop, Event.sleep 5]
  else
    [Event.setIndicator true, Event.wifiCall]
      ++ wifiLogTrace (wifiScanErrored env.wifiOutput)
      ++ [Event.btCall,
          Event.logCounts (wifi_scan env.wifiOutput).length
            (advanced_bluetooth_scan env.scannerPresent env.nearbyDevices
              env.findService).length,
          Event.displayCall]
      ++ update_display env.displayPresent env.displayFails
          (wifi_scan env.wifiOutput).length
          (advanced_bluetooth_scan env.scannerPresent env.nearbyDevices
            env.findService).length
      ++ [Event.sleep 10]
      ++ (if env.gpioLowFails then [Event.logErrorLoop, Event.sleep 5]
          else [Event.setIndicator false, Event.sleep 2])

/-- The while-True loop: concatenated traces of the first n cycles,
cycle k running under environment envs k.  Totality of `cycleTrace`
embeds that every cycle finishes and the next one starts. -/
def scanLoopTrace (envs : Nat → CycleEnv) : Nat → List Event
  | 0 => []
  | n + 1 => scanLoopTrace envs n ++ cycleTrace (envs n)

/-- Total units slept in a trace (only time.sleep blocks). -/
def totalSleep : List Event → Nat
  | [] => 0
  | Event.sleep n :: rest => n + totalSleep rest
  | _ :: rest => totalSleep rest

/-- An unexpected error escapes the try body of this cycle. -/
def errorEscapes (env : CycleEnv) : Bool :=
  env.gpioHighFails || env.gpioLowFails

/-- Selector: the scanner-collaborator calls of a cycle. -/
def scanCallEvent : Event → Bool
  | Event.wifiCall => true
  | Event.btCall => true
  | Event.nfcCall => true
  | _ => false

/-- Selector: indicator writes, scan calls and the dwell sleep. -/
def keyIndicatorEvent : Event → Bool
  | Event.setIndicator _ => true
  | Event.wifiCall => true
  | Event.btCall => true
  | Event.sleep n => n == 10
  | _ => false

/-- Selector: the steps named by the per-cycle ordering guarantee. -/
def keyStepEvent : Event → Bool
  | Event.setIndicator _ => true
  | Event.wifiCall => true
  | Event.btCall => true
  | Event.logCounts _ _ => true
  | Event.displayCall => true
  | Event.sleep _ => true
  | _ => false

/-- Selector: the status-indicator GPIO writes. -/
def indicatorWriteEvent : Event → Bool
  | Event.setIndicator _ => true
  | _ => false

/-- Concrete benign cycle environment (all collaborators succeed). -/
def benignEnv : CycleEnv :=
  ⟨some "", true, some [], fun _ => none, true, false, false, false⟩

/-- Concrete cycle environment whose iwlist subprocess call raises. -/
def wifiFailEnv : CycleEnv :=
  ⟨none, true, some [], fun _ => none, true, false, false, false⟩

/-- Concrete cycle environment whose GPIO HIGH write raises. -/
def gpioFailEnv : CycleEnv :=
  ⟨some "", true, some [], fun _ => none, true, false, true, false⟩

/-- Concrete cycle environment whose display setup had failed. -/
def noDisplayEnv : CycleEnv :=
  ⟨some "", true, some [], fun _ => none, false, false, false, false⟩

/-- Concrete benign cycle environment for the NFC counterexample. -/
def nfcCexEnv : CycleEnv :=
  ⟨some "", true, some [], fun _ => none, true, false, false, false⟩

/-- Concrete cycle environment in which the idle GPIO write raises, so an
unexpected error escapes the cycle body after the dwell sleep. -/
def indicatorCexEnv : CycleEnv :=
  ⟨some "", true, some [], fun _ => none, true, false, false, true⟩

/-- Helper: a successful parse is exactly the in-order extraction of the
quoted identifier from each line containing the ESSID marker. -/
theorem parseNetworks_eq_extraction (lines : List String)
    (ns : List NetworkObservation) (h : parseNetworks lines = some ns) :
    ns = ((lines.filter (fun l => pyContains "ESSID" l)).filterMap
      essidOfLine).map NetworkObservation.mk := by
  induction lines generalizing ns with
  | nil =>
    simp [parseNetworks] at h
    simp [← h]
  | cons line rest ih =>
    by_cases hc : pyContains "ESSID" line = true
    · simp only [parseNetworks, if_pos hc] at h
      cases he : essidOfLine line with
      | none => simp [he] at h
      | some essid =>
        simp only [he] at h
        cases hr : parseNetworks rest with
        | none => simp [hr] at h
        | some ms =>
          simp only [hr, Option.map_some', Option.some.injEq] at h
          simp [← h, List.filter_cons, hc, List.filterMap_cons, he, ih ms hr]
    · simp only [parseNetworks, if_neg hc] at h
      simp only [List.filter_cons]
      rw [if_neg]
      · exact ih ns h
      · simpa using hc

/-- Helper: one malformed ESSID line (no double quote) poisons the whole
parse, whatever the other lines contain. -/
theorem parseNetworks_eq_none_of_malformed (lines : List String)
    (line : String) (hmem : line ∈ lines)
    (hessid : pyContains "ESSID" line = true)
    (hquote : essidOfLine line = none) : parseNetworks lines = none := by
  induction lines with
  | nil => cases hmem
  | cons head rest ih =>
    rcases List.mem_cons.mp hmem with heq | htail
    · subst heq
      simp [parseNetworks, hessid, hquote]
    · by_cases hc : pyContains "ESSID" head = true
      · simp only [parseNetworks, if_pos hc]
        cases he : essidOfLine head with
        | none => rfl
        | some essid => simp [ih htail]
      · simp only [parseNetworks, if_neg hc]
        exact ih htail

/-- Helper: sleeping is additive over trace concatenation. -/
theorem totalSleep_append (l1 l2 : List Event) :
    totalSleep (l1 ++ l2) = totalSleep l1 + totalSleep l2 := by
  induction l1 with
  | nil => simp [totalSleep]
  | cons e rest ih => cases e <;> simp [totalSleep, ih, Nat.add_assoc]

/-- Claim C1, amended: in every cycle in which no unexpected error escapes
the loop body, the status indicator is set to active exactly once before
any scan call, and to idle exactly once after the dwell sleep, regardless
of the outcomes of the scans (those failures are absorbed).  Stated as:
the subsequence of indicator writes, scan calls and the dwell sleep is
exactly active, wifi, bluetooth, dwell, idle. -/
theorem indicator_active_idle_once_error_free (env : CycleEnv)
    (hg : env.gpioHighFails = false) (hl : env.gpioLowFails = false) :
    (cycleTrace env).filter keyIndicatorEvent =
      [Event.setIndicator true, Event.wifiCall, Event.btCall,
       Event.sleep 10, Event.setIndicator false] := by
  cases hw : wifiScanErrored env.wifiOutput <;> cases hp : env.displayPresent <;>
    cases hf : env.displayFails <;>
  simp [cycleTrace, hg, hl, hw, hp, hf, wifiLogTrace, update_display,
    List.filter_append, List.filter, keyIndicatorEvent]

/-- Witness for claim C1 at the benign environment. -/
theorem indicator_active_idle_once_error_free_witness :
    benignEnv.gpioHighFails = false ∧ benignEnv.gpioLowFails = false
    ∧ (cycleTrace benignEnv).filter keyIndicatorEvent =
        [Event.setIndicator true, Event.wifiCall, Event.btCall,
         Event.sleep 10, Event.setIndicator false] :=
  ⟨rfl, rfl, indicator_active_idle_once_error_free benignEnv rfl rfl⟩

/-- Counterexample to claim C1 as stated: in a cycle in which an
unexpected error escapes the loop body (here the idle GPIO write itself
raises, after the scans and the dwell sleep), the indicator is set to
idle zero times, not exactly once. -/
theorem indicator_idle_skipped_on_error_cex :
    errorEscapes indicatorCexEnv = true
    ∧ (cycleTrace indicatorCexEnv).count (Event.setIndicator false) = 0 := by
  decide

/-- Claim C2, amended: every cycle whose body starts normally calls the
Wi-Fi scan and then the Bluetooth scan; the NFC read is never invoked by
the scan loop. -/
theorem cycle_calls_wifi_bt_never_nfc (env : CycleEnv)
    (hg : env.gpioHighFails = false) :
    (cycleTrace env).filter scanCallEvent = [Event.wifiCall, Event.btCall]
    ∧ Event.nfcCall ∉ cycleTrace env := by
  constructor <;>
  · cases hw : wifiScanErrored env.wifiOutput <;> cases hl : env.gpioLowFails <;>
      cases hp : env.displayPresent <;> cases hf : env.displayFails <;>
    simp [cycleTrace, hg, hw, hl, hp, hf, wifiLogTrace, update_display,
      List.filter_append, List.filter, scanCallEvent]

/-- Witness for claim C2 at the benign environment. -/
theorem cycle_calls_wifi_bt_never_nfc_witness :
    benignEnv.gpioHighFails = false
    ∧ ((cycleTrace benignEnv).filter scanCallEvent =
        [Event.wifiCall, Event.btCall]
      ∧ Event.nfcCall ∉ cycleTrace benignEnv) :=
  ⟨rfl, cycle_calls_wifi_bt_never_nfc benignEnv rfl⟩

/-- Counterexample to claim C2 as stated: a concrete benign cycle makes
zero NFC read calls, so the loop does not invoke all three scanner
collaborators. -/
theorem nfc_read_not_invoked_cex :
    (cycleTrace nfcCexEnv).count Event.nfcCall = 0 := by decide

/-- Claim C3: a failing Wi-Fi scan yields the empty network list and one
error log from inside wifi_scan, and the cycle still reaches the
Bluetooth scan step (the scan-call subsequence of the cycle is wifi then
bluetooth).  Totality of `wifi_scan` embeds that the failure never raises
past its boundary. -/
theorem wifi_failure_absorbed_cycle_proceeds (env : CycleEnv)
    (hg : env.gpioHighFails = false)
    (hw : wifiScanErrored env.wifiOutput = true) :
    wifi_scan env.wifiOutput = []
    ∧ Event.logErrorWifi ∈ cycleTrace env
    ∧ (cycleTrace env).filter scanCallEvent = [Event.wifiCall, Event.btCall] := by
  have hempty : wifi_scan env.wifiOutput = [] := by
    cases ho : env.wifiOutput with
    | none => rfl
    | some out =>
      rw [ho] at hw
      simp only [wifiScanErrored, Option.isNone_iff_eq_none] at hw
      simp [wifi_scan, hw]
  refine ⟨hempty, ?_, ?_⟩ <;>
  · cases hl : env.gpioLowFails <;> cases hp : env.displayPresent <;>
      cases hf : env.displayFails <;>
    simp [cycleTrace, hg, hw, hl, hp, hf, wifiLogTrace, update_display,
      List.filter_append, List.filter, scanCallEvent]

/-- Witness for claim C3 at the environment whose subprocess call
raises. -/
theorem wifi_failure_absorbed_cycle_proceeds_witness :
    wifiFailEnv.gpioHighFails = false
    ∧ wifiScanErrored wifiFailEnv.wifiOutput = true
    ∧ (wifi_scan wifiFailEnv.wifiOutput = []
      ∧ Event.logErrorWifi ∈ cycleTrace wifiFailEnv
      ∧ (cycleTrace wifiFailEnv).filter scanCallEvent =
          [Event.wifiCall, Event.btCall]) :=
  ⟨rfl, rfl, wifi_failure_absorbed_cycle_proceeds wifiFailEnv rfl rfl⟩

/-- Claim C4: when the service lookup for a discovered address raises,
that device still appears in the output of advanced_bluetooth_scan with
an empty service list, and no device is dropped (the output length equals
the discovery length). -/
theorem bt_service_lookup_failure_keeps_device
    (ds : List (String × String)) (findService : String → Option (List String))
    (addr nm : String) (hmem : (addr, nm) ∈ ds)
    (hfail : findService addr = none) :
    (⟨addr, nm, []⟩ : DeviceObservation) ∈
        advanced_bluetooth_scan true (some ds) findService
    ∧ (advanced_bluetooth_scan true (some ds) findService).length = ds.length := by
  constructor
  · have h := List.mem_map_of_mem (fun d : String × String =>
      match findService d.1 with
      | none => (⟨d.1, d.2, []⟩ : DeviceObservation)
      | some svcs => ⟨d.1, d.2, svcs⟩) hmem
    simpa [advanced_bluetooth_scan, discover, hfail] using h
  · simp [advanced_bluetooth_scan, discover]

/-- Witness for claim C4: discovery returns one device at address AA:BB
named Phone, its service lookup raises, and the output is exactly that
device with an empty service list. -/
theorem bt_service_lookup_failure_keeps_device_witness :
    ("AA:BB", "Phone") ∈ [("AA:BB", "Phone")]
    ∧ ((fun _ : String => (none : Option (List String))) "AA:BB" = none)
    ∧ (⟨"AA:BB", "Phone", []⟩ : DeviceObservation) ∈
        advanced_bluetooth_scan true (some [("AA:BB", "Phone")]) (fun _ => none)
    ∧ (advanced_bluetooth_scan true (some [("AA:BB", "Phone")])
        (fun _ => none)).length = [("AA:BB", "Phone")].length :=
  ⟨by decide, rfl,
    (bt_service_lookup_failure_keeps_device [("AA:BB", "Phone")] (fun _ => none)
      "AA:BB" "Phone" (by decide) rfl).1,
    (bt_service_lookup_failure_keeps_device [("AA:BB", "Phone")] (fun _ => none)
      "AA:BB" "Phone" (by decide) rfl).2⟩

/-- Claim C5: on tool output whose parse succeeds, wifi_scan returns, in
line order, one network per line containing the ESSID marker, whose ssid
is the segment between the first two double quotes of that line. -/
theorem wifi_scan_extracts_quoted_identifiers (out : String)
    (ns : List NetworkObservation)
    (h : parseNetworks (pySplit '\n' out) = some ns) :
    wifi_scan (some out) =
      (((pySplit '\n' out).filter (fun l => pyContains "ESSID" l)).filterMap
        essidOfLine).map NetworkObservation.mk := by
  rw [wifi_scan, h]
  exact parseNetworks_eq_extraction _ _ h

/-- Witness for claim C5: the two-line example with ESSID Home and ESSID
Cafe yields exactly the networks Home then Cafe. -/
theorem wifi_scan_extracts_quoted_identifiers_witness :
    parseNetworks
        (pySplit '\n' "Cell 01\n ESSID:\"Home\"\nCell 02\n ESSID:\"Cafe\"")
      = some [⟨"Home"⟩, ⟨"Cafe"⟩]
    ∧ wifi_scan (some "Cell 01\n ESSID:\"Home\"\nCell 02\n ESSID:\"Cafe\"")
      = [⟨"Home"⟩, ⟨"Cafe"⟩] :=
  ⟨by decide,
    (wifi_scan_extracts_quoted_identifiers _ [⟨"Home"⟩, ⟨"Cafe"⟩]
      (by decide)).trans (by decide)⟩

/-- Claim C6: in every cycle in which an unexpected error escapes the
loop body, the handler logs exactly one loop-level error entry, the cycle
ends with that log followed by the 5-unit backoff sleep, and the loop
never terminates: the trace of the first n+1 cycles always extends the
trace of the first n cycles by the next full cycle. -/
theorem unexpected_error_one_log_backoff (env : CycleEnv)
    (herr : errorEscapes env = true) :
    (cycleTrace env).count Event.logErrorLoop = 1
    ∧ (∃ pre : List Event,
        cycleTrace env = pre ++ [Event.logErrorLoop, Event.sleep 5])
    ∧ ∀ (envs : Nat → CycleEnv) (n : Nat),
        scanLoopTrace envs (n + 1) = scanLoopTrace envs n ++ cycleTrace (envs n) := by
  rw [errorEscapes, Bool.or_eq_true] at herr
  refine ⟨?_, ?_, fun envs n => rfl⟩
  · cases hg : env.gpioHighFails with
    | true => simp [cycleTrace, hg, List.count_cons]
    | false =>
      have hl : env.gpioLowFails = true := by
        rcases herr with h | h
        · rw [hg] at h; cases h
        · exact h
      cases hw : wifiScanErrored env.wifiOutput <;> cases hp : env.displayPresent <;>
        cases hf : env.displayFails <;>
      simp [cycleTrace, hg, hl, hw, hp, hf, wifiLogTrace, update_display,
        List.count_append, List.count_cons]
  · cases hg : env.gpioHighFails with
    | true => exact ⟨[], by simp [cycleTrace, hg]⟩
    | false =>
      have hl : env.gpioLowFails = true := by
        rcases herr with h | h
        · rw [hg] at h; cases h
        · exact h
      refine ⟨[Event.setIndicator true, Event.wifiCall]
        ++ wifiLogTrace (wifiScanErrored env.wifiOutput)
        ++ [Event.btCall,
            Event.logCounts (wifi_scan env.wifiOutput).length
              (advanced_bluetooth_scan env.scannerPresent env.nearbyDevices
                env.findService).length,
            Event.displayCall]
        ++ update_display env.displayPresent env.displayFails
            (wifi_scan env.wifiOutput).length
            (advanced_bluetooth_scan env.scannerPresent env.nearbyDevices
              env.findService).length
        ++ [Event.sleep 10], ?_⟩
      simp [cycleTrace, hg, hl]

/-- Witness for claim C6 at the environment whose GPIO HIGH write
raises. -/
theorem unexpected_error_one_log_backoff_witness :
    errorEscapes gpioFailEnv = true
    ∧ ((cycleTrace gpioFailEnv).count Event.logErrorLoop = 1
      ∧ (∃ pre : List Event,
          cycleTrace gpioFailEnv = pre ++ [Event.logErrorLoop, Event.sleep 5])
      ∧ ∀ (envs : Nat → CycleEnv) (n : Nat),
          scanLoopTrace envs (n + 1) = scanLoopTrace envs n ++ cycleTrace (envs n)) :=
  ⟨rfl, unexpected_error_one_log_backoff gpioFailEnv rfl⟩

/-- Claim C7: in an error-free cycle the key steps run in the fixed order
active, wifi, bluetooth, log counts, display update, dwell sleep of 10,
idle, cooldown sleep of 2; such a cycle sleeps exactly 12 units, and any
cycle whatsoever sleeps at least the 5-unit backoff, so consecutive
cycles are at least dwell+cooldown (or backoff) apart. -/
theorem cycle_fixed_order_and_cadence (env : CycleEnv)
    (hg : env.gpioHighFails = false) (hl : env.gpioLowFails = false) :
    (cycleTrace env).filter keyStepEvent =
      [Event.setIndicator true, Event.wifiCall, Event.btCall,
       Event.logCounts (wifi_scan env.wifiOutput).length
         (advanced_bluetooth_scan env.scannerPresent env.nearbyDevices
           env.findService).length,
       Event.displayCall, Event.sleep 10, Event.setIndicator false,
       Event.sleep 2]
    ∧ totalSleep (cycleTrace env) = 12
    ∧ ∀ env2 : CycleEnv, 5 ≤ totalSleep (cycleTrace env2) := by
  refine ⟨?_, ?_, ?_⟩
  · cases hw : wifiScanErrored env.wifiOutput <;> cases hp : env.displayPresent <;>
      cases hf : env.displayFails <;>
    simp [cycleTrace, hg, hl, hw, hp, hf, wifiLogTrace, update_display,
      List.filter_append, List.filter, keyStepEvent]
  · cases hw : wifiScanErrored env.wifiOutput <;> cases hp : env.displayPresent <;>
      cases hf : env.displayFails <;>
    simp [cycleTrace, hg, hl, hw, hp, hf, wifiLogTrace, update_display,
      totalSleep_append, totalSleep]
  · intro env2
    cases hg2 : env2.gpioHighFails with
    | true => simp [cycleTrace, hg2, totalSleep]
    | false =>
      cases hl2 : env2.gpioLowFails <;>
        cases hw : wifiScanErrored env2.wifiOutput <;>
        cases hp : env2.displayPresent <;> cases hf : env2.displayFails <;>
      simp [cycleTrace, hg2, hl2, hw, hp, hf, wifiLogTrace, update_display,
        totalSleep_append, totalSleep]

/-- Witness for claim C7 at the benign environment. -/
theorem cycle_fixed_order_and_cadence_witness :
    benignEnv.gpioHighFails = false ∧ benignEnv.gpioLowFails = false
    ∧ ((cycleTrace benignEnv).filter keyStepEvent =
        [Event.setIndicator true, Event.wifiCall, Event.btCall,
         Event.logCounts 0 0, Event.displayCall, Event.sleep 10,
         Event.setIndicator false, Event.sleep 2]
      ∧ totalSleep (cycleTrace benignEnv) = 12
      ∧ ∀ env2 : CycleEnv, 5 ≤ totalSleep (cycleTrace env2)) :=
  ⟨rfl, rfl, cycle_fixed_order_and_cadence benignEnv rfl rfl⟩

/-- Claim C8: a display update that fails (or finds no display object)
never raises past the controller — update_display is total — so the
cycle still performs both indicator writes, never reaches the except
handler, and the next cycle still starts. -/
theorem display_failure_absorbed_cycle_continues (env : CycleEnv)
    (hg : env.gpioHighFails = false) (hl : env.gpioLowFails = false)
    (_hd : env.displayPresent = false ∨ env.displayFails = true) :
    Event.logErrorLoop ∉ cycleTrace env
    ∧ (cycleTrace env).filter indicatorWriteEvent =
        [Event.setIndicator true, Event.setIndicator false]
    ∧ ∀ (envs : Nat → CycleEnv) (n : Nat),
        scanLoopTrace envs (n + 1) = scanLoopTrace envs n ++ cycleTrace (envs n) := by
  refine ⟨?_, ?_, fun envs n => rfl⟩ <;>
  · cases hw : wifiScanErrored env.wifiOutput <;> cases hp : env.displayPresent <;>
      cases hf : env.displayFails <;>
    simp [cycleTrace, hg, hl, hw, hp, hf, wifiLogTrace, update_display,
      List.filter_append, List.filter, indicatorWriteEvent]

/-- Witness for claim C8 at the environment without a display object. -/
theorem display_failure_absorbed_cycle_continues_witness :
    noDisplayEnv.gpioHighFails = false ∧ noDisplayEnv.gpioLowFails = false
    ∧ (noDisplayEnv.displayPresent = false ∨ noDisplayEnv.displayFails = true)
    ∧ (Event.logErrorLoop ∉ cycleTrace noDisplayEnv
      ∧ (cycleTrace noDisplayEnv).filter indicatorWriteEvent =
          [Event.setIndicator true, Event.setIndicator false]
      ∧ ∀ (envs : Nat → CycleEnv) (n : Nat),
          scanLoopTrace envs (n + 1) = scanLoopTrace envs n ++ cycleTrace (envs n)) :=
  ⟨rfl, rfl, Or.inl rfl,
    display_failure_absorbed_cycle_continues noDisplayEnv rfl rfl (Or.inl rfl)⟩

/-- Claim C9: overall Bluetooth discovery failure yields the empty device
list — both when the scanner was never initialized (left branch) and when
bluetooth.discover_devices raises (right branch). -/
theorem bt_discovery_failure_yields_empty
    (findService : String → Option (List String))
    (nearbyDevices : Option (List (String × String))) :
    advanced_bluetooth_scan false nearbyDevices findService = []
    ∧ advanced_bluetooth_scan true none findService = [] :=
  ⟨rfl, rfl⟩

/-- Claim C10: one line containing ESSID but no double quote makes the
whole scan return the empty list — networks already parsed from earlier
well-formed lines are discarded, not returned partially. -/
theorem wifi_scan_discards_all_on_malformed_line (out line : String)
    (hmem : line ∈ pySplit '\n' out)
    (hessid : pyContains "ESSID" line = true)
    (hquote : (pySplit '"' line).length < 2) :
    wifi_scan (some out) = [] := by
  have hnone : essidOfLine line = none := by
    rw [essidOfLine]
    exact List.getElem?_eq_none (by omega)
  rw [wifi_scan, parseNetworks_eq_none_of_malformed _ line hmem hessid hnone]

/-- Witness for claim C10: output with a well-formed ESSID Home line
before the malformed line ESSID:off yields the empty list. -/
theorem wifi_scan_discards_all_on_malformed_line_witness :
    "ESSID:off" ∈ pySplit '\n' "ESSID:\"Home\"\nESSID:off\nESSID:\"Cafe\""
    ∧ pyContains "ESSID" "ESSID:off" = true
    ∧ (pySplit '"' "ESSID:off").length < 2
    ∧ wifi_scan (some "ESSID:\"Home\"\nESSID:off\nESSID:\"Cafe\"") = [] :=
  ⟨by decide, by decide, by decide,
    wifi_scan_discards_all_on_malformed_line _ "ESSID:off"
      (by decide) (by decide) (by decide)⟩

end FlipperPi
